import Mathlib

/-!
Verification of the emby-proxy-cli provisioning tool: a shallow embedding of
its configuration-resolution engine (src/modules/env.rs) and of its command
layer (src/modules/commands.rs), together with theorems settling the listed
behavioural properties.  Machine integers do not occur; strings are modelled
over their character lists so that every definition evaluates inside the
kernel.  Interactive input, the process environment and every external probe
(executable lookup, OS descriptor files, subprocess exit status) are injected
as read-only oracles, and each command is embedded as a pure function that
returns its result together with the ordered trace of the side effects it
performs.
-/

namespace EmbyProxy

/-! Section: Character-list models of the Rust string operations

Lean core string functions are written against byte positions and do not
reduce in the kernel, so the handful of `&str` operations the tool uses are
re-modelled structurally over `List Char`.  Unicode-whitespace trimming is
modelled by `Char.isWhitespace`, which covers the ASCII whitespace that can
occur in the tool's inputs. -/

/-- Characters of a trimmed string: leading and trailing whitespace removed,
modelling Rust `str::trim`. -/
def trimChars (cs : List Char) : List Char :=
  ((cs.dropWhile Char.isWhitespace).reverse.dropWhile Char.isWhitespace).reverse

/-- Rust `s.trim()` as a string-to-string operation. -/
def strTrim (s : String) : String :=
  String.mk (trimChars s.data)

/-- Rust `s.is_empty()`. -/
def strIsEmpty (s : String) : Bool :=
  s.data.isEmpty

/-- Rust `s.trim().is_empty()`, the blankness test used by every resolver
tier. -/
def blank (s : String) : Bool :=
  (trimChars s.data).isEmpty

/-- Whether the first list starts with the second, modelling
Rust `str::starts_with`. -/
def startsWithChars : List Char → List Char → Bool
  | _, [] => true
  | [], _ :: _ => false
  | c :: cs, p :: ps => c = p && startsWithChars cs ps

/-- Rust `s.starts_with(pre)`. -/
def strStartsWith (s pre : String) : Bool :=
  startsWithChars s.data pre.data

/-- Rust `s.ends_with(suf)`. -/
def strEndsWith (s suf : String) : Bool :=
  startsWithChars s.data.reverse suf.data.reverse

/-- Whether the pattern occurs as a contiguous run inside the list,
modelling Rust `str::contains` for a nonempty pattern. -/
def hasInfixChars : List Char → List Char → Bool
  | [], pat => pat.isEmpty
  | c :: cs, pat => startsWithChars (c :: cs) pat || hasInfixChars cs pat

/-- Rust `s.contains(pat)` for string patterns. -/
def strContains (s pat : String) : Bool :=
  hasInfixChars s.data pat.data

/-- Rust `slice.join(sep)`. -/
def joinSep (sep : String) : List String → String
  | [] => ""
  | [s] => s
  | s :: rest => s ++ sep ++ joinSep sep rest

/-- Rust `s.replace(a, b)` for a single-character pattern replaced by a
single-character string. -/
def strReplaceChar (s : String) (a b : Char) : String :=
  String.mk (s.data.map (fun c => if c = a then b else c))

/-- Rust `a.eq_ignore_ascii_case(b)`: ASCII-case-insensitive equality.
`Char.toLower` lowers exactly the ASCII uppercase letters. -/
def eqIgnoreAsciiCase (a b : String) : Bool :=
  a.data.map Char.toLower == b.data.map Char.toLower

/-- Split a character list on a separator character, keeping empty pieces,
modelling Rust `str::split(char)`. -/
def splitOnChar (sep : Char) : List Char → List (List Char)
  | [] => [[]]
  | c :: cs =>
    if c = sep then [] :: splitOnChar sep cs
    else
      match splitOnChar sep cs with
      | [] => [[c]]
      | p :: ps => (c :: p) :: ps

/-- Rust `str::lines` for LF-terminated text: split on newline, dropping the
empty piece a trailing newline would produce. -/
def rustLines (s : String) : List (List Char) :=
  let parts := splitOnChar '\n' s.data
  match parts.reverse with
  | [] :: rest => rest.reverse
  | _ => parts

/-- Rust `str::strip_prefix`: the remainder when the list starts with the
prefix. -/
def stripPreChars : List Char → List Char → Option (List Char)
  | [], s => some s
  | _ :: _, [] => none
  | p :: ps, c :: cs => if c = p then stripPreChars ps cs else none

/-- Rust `s.trim_matches('"')`: strip any run of double quotes from both
ends. -/
def trimQuotes (cs : List Char) : List Char :=
  ((cs.dropWhile (· = '"')).reverse.dropWhile (· = '"')).reverse

/-- Model of `PathBuf::join` for Unix-style paths: an absolute right operand
replaces the base, an empty base disappears, and otherwise the two sides are
joined with a single separator. -/
def pathJoin (base child : String) : String :=
  if strStartsWith child "/" then child
  else if strIsEmpty base then child
  else if strEndsWith base "/" then base ++ child
  else base ++ "/" ++ child

/-! Section: Data model of the resolution engine (src/modules/env.rs)

A string map stands both for the CLI override map and for the injected
snapshot of the process environment; interactive input arrives through
oracles: a plain prompt is the line the stream would deliver (or its I/O
error), and a bounded prompt is a three-way outcome. -/

/-- Read-only lookup of string values: the override map and the process
environment snapshot. -/
abbrev Smap := String → Option String

/-- Outcome of one bounded stdin read: the detached reader delivered a line,
the wait timed out, or the completion channel failed. -/
inductive TimedRead where
  | line (input : String)
  | timeout
  | failed
  deriving DecidableEq, Repr

/-- DNS provider constants from env.rs lines 11 to 15. -/
def RESOLVER_TIMEOUT_SECS : Nat := 10

/-- Cloudflare resolver list (env.rs line 12). -/
def RESOLVER_CLOUDFLARE : String :=
  "1.1.1.1 1.0.0.1 [2606:4700:4700::1111] [2606:4700:4700::1064]"

/-- Tencent resolver list (env.rs line 13). -/
def RESOLVER_TENCENT : String := "119.29.29.29 182.254.116.116"

/-- Aliyun resolver list (env.rs line 14). -/
def RESOLVER_ALI : String := "223.5.5.5 223.6.6.6"

/-- Google resolver list (env.rs line 15). -/
def RESOLVER_GOOGLE : String := "8.8.8.8 8.8.4.4"

/-- Default resolver constant of the command layer (commands.rs line 20). -/
def DEFAULT_RESOLVER : String :=
  "1.1.1.1 1.0.0.1 [2606:4700:4700::1111] [2606:4700:4700::1064]"

/-- Characters before the first equals sign, modelling the first piece of
`splitn(2, char eq)`. -/
def keyPartChars : List Char → List Char
  | [] => []
  | c :: cs => if c = '=' then [] else c :: keyPartChars cs

/-- Characters after the first equals sign when one exists: the second piece
of `splitn(2, char eq)`. -/
def valueAfterEq : List Char → Option (List Char)
  | [] => none
  | c :: cs => if c = '=' then some cs else valueAfterEq cs

/-- Embedding of parse_key_val (env.rs lines 17 to 25): the key is the
trimmed text before the first equals sign (the whole string when none
occurs), the value is the untrimmed text after it (empty when none occurs,
via unwrap_or), and a blank key is the only error. -/
def parse_key_val (s : String) : Except String (String × String) :=
  let key := strTrim (String.mk (keyPartChars s.data))
  let value :=
    match valueAfterEq s.data with
    | some cs => String.mk cs
    | none => ""
  if strIsEmpty key then .error "--env expects KEY=VALUE" else .ok (key, value)

/-- Embedding of to_env_map (env.rs lines 27 to 33): fold the parsed pairs
into a lookup, each insertion replacing any earlier binding of the same
key. -/
def to_env_map (pairs : List (String × String)) : Smap :=
  pairs.foldl (fun map kv => fun k => if k = kv.1 then some kv.2 else map k)
    (fun _ => none)

/-- The guarded lookup pattern used by every resolver tier: an entry counts
only when present and non-blank after trimming. -/
def nonBlank (v : Option String) : Option String :=
  match v with
  | some value => if blank value then none else some value
  | none => none

/-- Embedding of prompt_value (env.rs lines 271 to 285).  The injected
`promptLine` is the raw line the input stream would deliver, or its I/O
error; the sensitive branch reads a password verbatim while the plain branch
trims the line. -/
def prompt_value (promptLine : Except String String) (sensitive : Bool) :
    Except String String :=
  match promptLine with
  | .error e => .error ("Prompt failed: " ++ e)
  | .ok input => if sensitive then .ok input else .ok (strTrim input)

/-- Embedding of resolve_value (env.rs lines 35 to 57): explicit value, then
non-blank override entry, then non-blank process environment entry, then the
interactive prompt. -/
def resolve_value (cli_value : Option String) (env_overrides : Smap)
    (env_key : String) (prompt_label : String) (sensitive : Bool)
    (envv : Smap) (promptLine : Except String String) :
    Except String String :=
  match cli_value with
  | some value => .ok value
  | none =>
    match nonBlank (env_overrides env_key) with
    | some value => .ok value
    | none =>
      match nonBlank (envv env_key) with
      | some value => .ok value
      | none => prompt_value promptLine sensitive

/-- Embedding of resolve_optional_value (env.rs lines 59 to 86): the same
chain as resolve_value, but a blank prompt response resolves to no value. -/
def resolve_optional_value (cli_value : Option String) (env_overrides : Smap)
    (env_key : String) (prompt_label : String) (sensitive : Bool)
    (envv : Smap) (promptLine : Except String String) :
    Except String (Option String) :=
  match cli_value with
  | some value => .ok (some value)
  | none =>
    match nonBlank (env_overrides env_key) with
    | some value => .ok (some value)
    | none =>
      match nonBlank (envv env_key) with
      | some value => .ok (some value)
      | none =>
        match prompt_value promptLine sensitive with
        | .error e => .error e
        | .ok input =>
          if blank input then .ok none else .ok (some input)

/-- Embedding of resolve_path (env.rs lines 88 to 116): the scalar chain for
paths, where a blank prompt response falls back to the caller-supplied
default path. -/
def resolve_path (cli_value : Option String) (env_overrides : Smap)
    (env_key : String) (default : String) (prompt_label : String)
    (envv : Smap) (promptLine : Except String String) :
    Except String String :=
  match cli_value with
  | some value => .ok value
  | none =>
    match nonBlank (env_overrides env_key) with
    | some value => .ok value
    | none =>
      match nonBlank (envv env_key) with
      | some value => .ok value
      | none =>
        match prompt_value promptLine false with
        | .error e => .error e
        | .ok input => if blank input then .ok default else .ok input

/-- Embedding of resolve_optional_path (env.rs lines 118 to 137): explicit
value, then non-blank override, then non-blank environment entry, never a
prompt. -/
def resolve_optional_path (cli_value : Option String) (env_overrides : Smap)
    (env_key : String) (envv : Smap) : Option String :=
  match cli_value with
  | some value => some value
  | none =>
    match nonBlank (env_overrides env_key) with
    | some value => some value
    | none => nonBlank (envv env_key)

/-- Embedding of resolve_from_envs (env.rs lines 181 to 198): the first key
in the alias list with a non-blank override entry or, failing that, a
non-blank process environment entry. -/
def resolve_from_envs (env_overrides : Smap) (envv : Smap) :
    List String → Option String
  | [] => none
  | key :: rest =>
    match nonBlank (env_overrides key) with
    | some value => some value
    | none =>
      match nonBlank (envv key) with
      | some value => some value
      | none => resolve_from_envs env_overrides envv rest

/-- Embedding of resolve_name_with_default (env.rs lines 159 to 179): the
alias chain, then a prompt whose blank response resolves to the visible
default. -/
def resolve_name_with_default (cli_value : Option String)
    (env_overrides : Smap) (env_keys : List String) (default : String)
    (prompt_label : String) (envv : Smap)
    (promptLine : Except String String) : Except String String :=
  match cli_value with
  | some value => .ok value
  | none =>
    match resolve_from_envs env_overrides envv env_keys with
    | some value => .ok value
    | none =>
      match prompt_value promptLine false with
      | .error e => .error e
      | .ok input => if blank input then .ok default else .ok input

/-- Embedding of resolve_cert_dir (env.rs lines 139 to 157): an explicit
directory wins outright; otherwise a directory name is resolved and joined
under the fixed base path. -/
def resolve_cert_dir (cert_dir : Option String)
    (cert_dir_name : Option String) (env_overrides : Smap)
    (env_keys : List String) (default_name : String) (envv : Smap)
    (promptLine : Except String String) : Except String String :=
  match cert_dir with
  | some dir => .ok dir
  | none =>
    match resolve_name_with_default cert_dir_name env_overrides env_keys
        default_name "certificate directory name" envv promptLine with
    | .error e => .error e
    | .ok name => .ok (pathJoin "/etc/ca-certificates" name)

/-- Embedding of read_line_with_timeout (env.rs lines 256 to 269): a
delivered line, a timeout as no answer, or a channel failure as an error. -/
def read_line_with_timeout (timed : TimedRead) :
    Except String (Option String) :=
  match timed with
  | .line input => .ok (some input)
  | .timeout => .ok none
  | .failed => .error "Failed to read input"

/-- Embedding of select_resolver_with_timeout (env.rs lines 223 to 254): a
timed-out or blank answer resolves to the caller's default, digits one to
four pick the named providers, five opens a free-text prompt whose blank
response again resolves to the default, and any other answer resolves to the
default. -/
def select_resolver_with_timeout (timed : TimedRead)
    (customLine : Except String String) (default_value : String) :
    Except String String :=
  match read_line_with_timeout timed with
  | .error e => .error e
  | .ok input =>
    let choice := input.getD ""
    let trimmed := strTrim choice
    if strIsEmpty trimmed then .ok default_value
    else if trimmed = "1" then .ok RESOLVER_CLOUDFLARE
    else if trimmed = "2" then .ok RESOLVER_TENCENT
    else if trimmed = "3" then .ok RESOLVER_ALI
    else if trimmed = "4" then .ok RESOLVER_GOOGLE
    else if trimmed = "5" then
      match prompt_value customLine false with
      | .error e => .error e
      | .ok custom =>
        if blank custom then .ok default_value else .ok custom
    else .ok default_value

/-- Embedding of resolve_resolvers (env.rs lines 200 to 221): repeated CLI
values joined with spaces win, then the non-blank override and environment
tiers, then the interactive provider menu. -/
def resolve_resolvers (cli_values : List String) (env_overrides : Smap)
    (env_key : String) (default_value : String) (envv : Smap)
    (timed : TimedRead) (customLine : Except String String) :
    Except String String :=
  if !cli_values.isEmpty then .ok (joinSep " " cli_values)
  else
    match nonBlank (env_overrides env_key) with
    | some value => .ok value
    | none =>
      match nonBlank (envv env_key) with
      | some value => .ok value
      | none => select_resolver_with_timeout timed customLine default_value

/-! Section: Command layer (src/modules/commands.rs)

Each command is embedded as a pure function from a `World` of read-only
oracles (existence probes, OS descriptor contents, subprocess outcomes,
interactive input) to its result paired with the ordered list of side
effects it performs.  Logging (log.rs) appears as `Effect.log` entries
carrying the message text; read-only probes appear as `Effect.probe`; every
genuine mutation appears as its own constructor.  Template contents
(src/modules/templates.rs renders fixed text) are outside the claims, so
file-write effects carry the path only. -/

/-- One observable side effect of a command run. -/
inductive Effect where
  | runCmd (cmd : String) (args : List String)
  | fsWrite (path : String)
  | fsCreateDirAll (path : String)
  | fsCopy (src dst : String)
  | fsRemoveDirAll (path : String)
  | fsRename (src dst : String)
  | crontabWrite
  | probe (what : String)
  | log (msg : String)
  deriving DecidableEq, Repr

/-- Whether an effect mutates the system: subprocess invocations with side
effects, filesystem writes and the scheduler update count; read-only probes
and console logging do not. -/
def Effect.mutating : Effect → Bool
  | .runCmd _ _ => true
  | .fsWrite _ => true
  | .fsCreateDirAll _ => true
  | .fsCopy _ _ => true
  | .fsRemoveDirAll _ => true
  | .fsRename _ _ => true
  | .crontabWrite => true
  | .probe _ => false
  | .log _ => false

/-- A trace is clean when it performs no mutating effect. -/
def cleanTrace (tr : List Effect) : Bool :=
  tr.all (fun e => !e.mutating)

/-- The outcome of a command step together with the effect trace it
produced. -/
abbrev Res (α : Type) := Except String α × List Effect

/-- The read-only oracles a command run consumes: the process environment
snapshot, executable-existence probes, the outcomes external processes and
filesystem operations would report, and the lines interactive reads would
deliver. -/
structure World where
  envv : Smap
  commandExists : String → Bool
  uid : Except String String
  cmdResult : String → List String → Except String Bool
  confirmRead : TimedRead
  osRelease : Except String String
  lsbRelease : Except String (Bool × String)
  alpineRelease : Except String String
  apkRepositories : Except String String
  cacheDirExists : Bool
  crontabList : Except String String
  crontabApply : Except String Bool
  fsWriteOk : String → Except String Unit
  fsCreateDirOk : String → Except String Unit
  fsCopyOk : String → String → Except String Unit
  fsRemoveDirOk : String → Except String Unit
  fsRenameOk : String → String → Except String Unit

/-- Embedding of command_exists (commands.rs lines 766 to 776): a read-only
lookup along the configured search path, answered by the world oracle. -/
def command_exists (w : World) (command_name : String) : Bool :=
  w.commandExists command_name

/-- Embedding of run_cmd (commands.rs lines 778 to 794): in dry-run mode the
invocation is replaced by a logged statement of intent; otherwise the
subprocess runs, a spawn failure or non-zero exit being an error. -/
def runCommand (w : World) (cmd : String) (args : List String) (dry_run : Bool) :
    Res Unit :=
  if dry_run then
    (.ok (), [.log ("[dry-run] Would run: " ++ cmd ++ " " ++ joinSep " " args)])
  else
    match w.cmdResult cmd args with
    | .error e => (.error ("Failed to run " ++ cmd ++ ": " ++ e), [.runCmd cmd args])
    | .ok true => (.ok (), [.runCmd cmd args])
    | .ok false => (.error ("Command failed: " ++ cmd), [.runCmd cmd args])

/-- Sequencing of two unit steps: the second runs only when the first
succeeded, and the traces concatenate, mirroring the question-mark operator
chains of the source. -/
def andThen (a : Res Unit) (b : Res Unit) : Res Unit :=
  match a with
  | (.error e, tr) => (.error e, tr)
  | (.ok _, tr) => (b.1, tr ++ b.2)

/-- Embedding of ensure_root (commands.rs lines 825 to 835): probe the
effective uid through the id utility and fail unless it is zero. -/
def ensure_root (w : World) : Res Unit :=
  match w.uid with
  | .error e => (.error ("Failed to check uid: " ++ e), [.probe "id -u"])
  | .ok out =>
    if strTrim out = "0" then (.ok (), [.probe "id -u"])
    else (.error "This command must be run as root", [.probe "id -u"])

/-- Default confirmation timeout in seconds (commands.rs line 736). -/
def DEFAULT_CONFIRM_TIMEOUT : Nat := 10

/-- Embedding of confirm_with_timeout (commands.rs lines 738 to 764): in
dry-run mode the prompt is only announced and the answer is no; otherwise a
delivered line answers yes exactly for a trimmed ASCII-case-insensitive y or
yes, a timeout answers no, and a channel failure is an error. -/
def confirm_with_timeout (prompt : String) (timeout_secs : Nat)
    (timed : TimedRead) (dry_run : Bool) : Res Bool :=
  if dry_run then
    (.ok false, [.log ("[dry-run] Would prompt: " ++ prompt)])
  else
    let header : Effect :=
      .log (prompt ++ " (y/N) [timeout " ++ toString timeout_secs ++ "s]")
    match timed with
    | .line input =>
      let trimmed := strTrim input
      (.ok (eqIgnoreAsciiCase trimmed "y" || eqIgnoreAsciiCase trimmed "yes"),
        [header])
    | .timeout => (.ok false, [header])
    | .failed => (.error "Failed to read input", [header])

/-- Embedding of install_if_missing (commands.rs lines 525 to 547): skip
when the executable already resolves, otherwise run the installer and record
the change, phrased for a dry run as a would-install entry. -/
def install_if_missing (w : World) (command_name : String) (dry_run : Bool)
    (installer : Bool → Res Unit) : Res (List String) :=
  if command_exists w command_name then
    (.ok [], [.log (command_name ++ " is already installed")])
  else
    match installer dry_run with
    | (.error e, tr) => (.error e, .log ("Installing " ++ command_name) :: tr)
    | (.ok _, tr) =>
      (.ok [if dry_run then "Would install " ++ command_name
            else "Installed " ++ command_name],
        .log ("Installing " ++ command_name) :: tr)

/-- First line of the OS-release text carrying the given prefix, with the
prefix stripped and surrounding double quotes trimmed. -/
def findStripQuoted (pre : String) : List (List Char) → Option String
  | [] => none
  | l :: ls =>
    match stripPreChars pre.data l with
    | some rest => some (String.mk (trimQuotes rest))
    | none => findStripQuoted pre ls

/-- Embedding of read_os_id (commands.rs lines 796 to 805): the ID field of
the OS-release descriptor, a missing file or field being fatal. -/
def read_os_id (w : World) : Res String :=
  match w.osRelease with
  | .error e =>
    (.error ("Failed to read /etc/os-release: " ++ e), [.probe "/etc/os-release"])
  | .ok content =>
    match findStripQuoted "ID=" (rustLines content) with
    | some v => (.ok v, [.probe "/etc/os-release"])
    | none => (.error "OS ID not found in /etc/os-release", [.probe "/etc/os-release"])

/-- Embedding of read_os_codename (commands.rs lines 807 to 823): the
VERSION_CODENAME field, falling back to the lsb_release utility; both
failing is fatal. -/
def read_os_codename (w : World) : Res String :=
  match w.osRelease with
  | .error e =>
    (.error ("Failed to read /etc/os-release: " ++ e), [.probe "/etc/os-release"])
  | .ok content =>
    match findStripQuoted "VERSION_CODENAME=" (rustLines content) with
    | some v => (.ok v, [.probe "/etc/os-release"])
    | none =>
      match w.lsbRelease with
      | .error e =>
        (.error ("Failed to run lsb_release: " ++ e),
          [.probe "/etc/os-release", .probe "lsb_release -cs"])
      | .ok (false, _) =>
        (.error "Failed to read OS codename",
          [.probe "/etc/os-release", .probe "lsb_release -cs"])
      | .ok (true, out) =>
        (.ok (strTrim out), [.probe "/etc/os-release", .probe "lsb_release -cs"])

/-- Embedding of install_nginx_debian_like (commands.rs lines 559 to 617):
prerequisite packages, signing key fetch and dearmor, the APT source and pin
files (replaced by intents in a dry run), update and install. -/
def install_nginx_debian_like (w : World) (os_id : String) (dry_run : Bool) :
    Res Unit :=
  let keyring_pkg :=
    if os_id = "ubuntu" then "ubuntu-keyring" else "debian-archive-keyring"
  match runCommand w "apt"
      ["install", "-y", "curl", "gnupg2", "ca-certificates", "lsb-release",
        keyring_pkg] dry_run with
  | (.error e, tr) => (.error e, tr)
  | (.ok _, tr1) =>
  match runCommand w "curl"
      ["-o", "/tmp/nginx_signing.key", "https://nginx.org/keys/nginx_signing.key"]
      dry_run with
  | (.error e, tr) => (.error e, tr1 ++ tr)
  | (.ok _, tr2) =>
  match runCommand w "gpg"
      ["--dearmor", "-o", "/usr/share/keyrings/nginx-archive-keyring.gpg",
        "/tmp/nginx_signing.key"] dry_run with
  | (.error e, tr) => (.error e, tr1 ++ tr2 ++ tr)
  | (.ok _, tr3) =>
  match read_os_codename w with
  | (.error e, tr) => (.error e, tr1 ++ tr2 ++ tr3 ++ tr)
  | (.ok _codename, tr4) =>
  let filesStep : Res Unit :=
    if dry_run then
      (.ok (), [.log "[dry-run] Would write /etc/apt/sources.list.d/nginx.list",
        .log "[dry-run] Would write /etc/apt/preferences.d/99nginx"])
    else
      match w.fsWriteOk "/etc/apt/sources.list.d/nginx.list" with
      | .error e =>
        (.error ("Failed to write nginx.list: " ++ e),
          [.fsWrite "/etc/apt/sources.list.d/nginx.list"])
      | .ok _ =>
        match w.fsWriteOk "/etc/apt/preferences.d/99nginx" with
        | .error e =>
          (.error ("Failed to write 99nginx: " ++ e),
            [.fsWrite "/etc/apt/sources.list.d/nginx.list",
              .fsWrite "/etc/apt/preferences.d/99nginx"])
        | .ok _ =>
          (.ok (), [.fsWrite "/etc/apt/sources.list.d/nginx.list",
            .fsWrite "/etc/apt/preferences.d/99nginx"])
  match filesStep with
  | (.error e, tr) => (.error e, tr1 ++ tr2 ++ tr3 ++ tr4 ++ tr)
  | (.ok _, tr5) =>
  match runCommand w "apt" ["update"] dry_run with
  | (.error e, tr) => (.error e, tr1 ++ tr2 ++ tr3 ++ tr4 ++ tr5 ++ tr)
  | (.ok _, tr6) =>
  match runCommand w "apt" ["install", "-y", "nginx"] dry_run with
  | (r, tr7) => (r, tr1 ++ tr2 ++ tr3 ++ tr4 ++ tr5 ++ tr6 ++ tr7)

/-- Embedding of install_nginx_alpine (commands.rs lines 619 to 676):
prerequisites, versioned repository line appended when absent, signing key
fetched and moved, distro-qualified install; mutations become intents in a
dry run while the release file is still read. -/
def install_nginx_alpine (w : World) (dry_run : Bool) : Res Unit :=
  match runCommand w "apk" ["add", "openssl", "curl", "ca-certificates"] dry_run with
  | (.error e, tr) => (.error e, tr)
  | (.ok _, tr1) =>
  match w.alpineRelease with
  | .error e =>
    (.error ("Failed to read /etc/alpine-release: " ++ e),
      tr1 ++ [.probe "/etc/alpine-release"])
  | .ok release =>
  let version :=
    joinSep "." (((splitOnChar '.' (trimChars release.data)).take 2).map String.mk)
  let repo_line :=
    "@nginx https://nginx.org/packages/mainline/alpine/v" ++ version ++ "/main\n"
  let tr1 := tr1 ++ [.probe "/etc/alpine-release"]
  let repoStep : Res Unit :=
    if dry_run then
      (.ok (), [.log "[dry-run] Would append nginx repo to /etc/apk/repositories"])
    else
      match w.apkRepositories with
      | .error e =>
        (.error ("Failed to read /etc/apk/repositories: " ++ e),
          [.probe "/etc/apk/repositories"])
      | .ok repos =>
        if strContains repos repo_line then
          (.ok (), [.probe "/etc/apk/repositories"])
        else
          match w.fsWriteOk "/etc/apk/repositories" with
          | .error e =>
            (.error ("Failed to write /etc/apk/repositories: " ++ e),
              [.probe "/etc/apk/repositories", .fsWrite "/etc/apk/repositories"])
          | .ok _ =>
            (.ok (), [.probe "/etc/apk/repositories", .fsWrite "/etc/apk/repositories"])
  match repoStep with
  | (.error e, tr) => (.error e, tr1 ++ tr)
  | (.ok _, tr2) =>
  match runCommand w "curl"
      ["-o", "/tmp/nginx_signing.rsa.pub",
        "https://nginx.org/keys/nginx_signing.rsa.pub"] dry_run with
  | (.error e, tr) => (.error e, tr1 ++ tr2 ++ tr)
  | (.ok _, tr3) =>
  let keyStep : Res Unit :=
    if dry_run then
      (.ok (), [.log "[dry-run] Would move nginx signing key to /etc/apk/keys/"])
    else
      match w.fsRenameOk "/tmp/nginx_signing.rsa.pub" "/etc/apk/keys/nginx_signing.rsa.pub" with
      | .error e =>
        (.error ("Failed to move nginx signing key: " ++ e),
          [.fsRename "/tmp/nginx_signing.rsa.pub" "/etc/apk/keys/nginx_signing.rsa.pub"])
      | .ok _ =>
        (.ok (), [.fsRename "/tmp/nginx_signing.rsa.pub" "/etc/apk/keys/nginx_signing.rsa.pub"])
  match keyStep with
  | (.error e, tr) => (.error e, tr1 ++ tr2 ++ tr3 ++ tr)
  | (.ok _, tr4) =>
  match runCommand w "apk" ["add", "nginx@nginx"] dry_run with
  | (r, tr5) => (r, tr1 ++ tr2 ++ tr3 ++ tr4 ++ tr5)

/-- Embedding of install_nginx_official (commands.rs lines 549 to 557):
dispatch on the OS identifier, an unrecognised identifier being fatal. -/
def install_nginx_official (w : World) (dry_run : Bool) : Res Unit :=
  match read_os_id w with
  | (.error e, tr) => (.error e, tr)
  | (.ok os_id, tr) =>
    if os_id = "debian" then
      match install_nginx_debian_like w "debian" dry_run with
      | (r, tr2) => (r, tr ++ tr2)
    else if os_id = "ubuntu" then
      match install_nginx_debian_like w "ubuntu" dry_run with
      | (r, tr2) => (r, tr ++ tr2)
    else if os_id = "alpine" then
      match install_nginx_alpine w dry_run with
      | (r, tr2) => (r, tr ++ tr2)
    else (.error ("Unsupported OS for nginx install: " ++ os_id), tr)

/-- The zsh block of setup_system (commands.rs lines 33 to 44): an existence
probe, then a timed confirmation gating the idempotent install. -/
def setup_zsh_step (w : World) (dry_run : Bool) : Res (List String) :=
  if command_exists w "zsh" then (.ok [], [.log "zsh is already installed"])
  else
    match confirm_with_timeout "Install zsh?" DEFAULT_CONFIRM_TIMEOUT
        w.confirmRead dry_run with
    | (.error e, tr) => (.error e, tr)
    | (.ok true, tr) =>
      (match install_if_missing w "zsh" dry_run (fun d =>
          andThen (runCommand w "apt-get" ["update", "-qq"] d)
            (runCommand w "apt-get" ["install", "-y", "zsh"] d)) with
      | (r, tr2) => (r, tr ++ tr2))
    | (.ok false, tr) => (.ok [], tr ++ [.log "zsh install skipped"])

/-- The cron block of setup_system (commands.rs lines 46 to 53). -/
def setup_cron_step (w : World) (dry_run : Bool) : Res (List String) :=
  install_if_missing w "crontab" dry_run (fun d =>
    andThen (runCommand w "apt-get" ["update", "-qq"] d)
      (andThen (runCommand w "apt-get" ["install", "-y", "cron"] d)
        (andThen (runCommand w "systemctl" ["enable", "cron"] d)
          (runCommand w "systemctl" ["start", "cron"] d))))

/-- The nginx block of setup_system (commands.rs lines 55 to 59). -/
def setup_nginx_step (w : World) (dry_run : Bool) : Res (List String) :=
  install_if_missing w "nginx" dry_run (fun d => install_nginx_official w d)

/-- Embedding of setup_system (commands.rs lines 22 to 63): privilege gate,
then the three capability steps in order, each idempotently guarded; the
result carries the accumulated change log that the summary would print. -/
def setup_system (w : World)
    (install_zsh install_cron install_nginx dry_run : Bool) :
    Res (List String) :=
  match ensure_root w with
  | (.error e, tr) => (.error e, .log "System setup" :: tr)
  | (.ok _, trRoot) =>
  let tr0 := .log "System setup" :: trRoot
  match (if install_zsh then setup_zsh_step w dry_run
      else ((.ok [], []) : Res (List String))) with
  | (.error e, tr) => (.error e, tr0 ++ tr)
  | (.ok ch1, tr1) =>
  match (if install_cron then setup_cron_step w dry_run
      else ((.ok [], []) : Res (List String))) with
  | (.error e, tr) => (.error e, tr0 ++ tr1 ++ tr)
  | (.ok ch2, tr2) =>
  match (if install_nginx then setup_nginx_step w dry_run
      else ((.ok [], []) : Res (List String))) with
  | (.error e, tr) => (.error e, tr0 ++ tr1 ++ tr2 ++ tr)
  | (.ok ch3, tr3) =>
    let changes := ch1 ++ ch2 ++ ch3
    let summary :=
      if changes.isEmpty then [Effect.log "No changes were made"]
      else changes.map Effect.log
    (.ok changes, tr0 ++ tr1 ++ tr2 ++ tr3 ++ (.log "Summary" :: summary))

/-- Parent directory of a Unix-style path string, modelling Path::parent:
none for the root, the empty string for a bare file name, otherwise the text
before the final separator. -/
def parentDir (p : String) : Option String :=
  if p = "/" then none
  else if p.data.contains '/' = false then some ""
  else
    let pre := ((p.data.reverse.dropWhile (· ≠ '/')).drop 1).reverse
    if pre.isEmpty then some "/" else some (String.mk pre)

/-- Embedding of resolve_cert_paths (commands.rs lines 852 to 871): an
explicit pair is used verbatim, a wholly absent pair is derived from the
certificate directory and domain with fixed suffixes, and a half-specified
pair is a configuration error. -/
def resolve_cert_paths (cert_path key_path : Option String)
    (cert_dir : Option String) (domain : Option String) :
    Except String (String × String) :=
  match cert_path, key_path with
  | some cp, some kp => .ok (cp, kp)
  | none, none =>
    match cert_dir with
    | none => .error "cert_dir is required to derive cert paths"
    | some dir =>
      match domain with
      | none => .error "domain is required to derive cert paths"
      | some d => .ok (pathJoin dir (d ++ ".cer"), pathJoin dir (d ++ ".key"))
  | _, _ => .error "Both cert and key paths must be set together"

/-- Embedding of setup_acme_renew_cron (commands.rs lines 678 to 734): skip
without crontab, announce the intent in a dry run, otherwise append the
renewal line idempotently through the scheduler. -/
def setup_acme_renew_cron (w : World) (acme_bin acme_home : String)
    (dry_run : Bool) : Res Unit :=
  if command_exists w "crontab" = false then
    (.ok (), [.log "crontab not found, skipping renew cron setup"])
  else
    let cron_line :=
      "0 0 1,16 * * /bin/sh " ++ acme_bin ++ " --cron --home " ++ acme_home
        ++ " >/dev/null 2>&1"
    if dry_run then
      (.ok (), [.log "Setting up acme renew cron",
        .log ("[dry-run] Would ensure cron: " ++ cron_line)])
    else
      match w.crontabList with
      | .error e =>
        (.error ("Failed to read crontab: " ++ e),
          [.log "Setting up acme renew cron", .probe "crontab -l"])
      | .ok content =>
        if strContains content cron_line then
          (.ok (), [.log "Setting up acme renew cron", .probe "crontab -l",
            .log "acme renew cron already exists"])
        else
          match w.crontabApply with
          | .error e =>
            (.error ("Failed to write crontab: " ++ e),
              [.log "Setting up acme renew cron", .probe "crontab -l",
                .crontabWrite])
          | .ok false =>
            (.error "Failed to update crontab",
              [.log "Setting up acme renew cron", .probe "crontab -l",
                .crontabWrite])
          | .ok true =>
            (.ok (), [.log "Setting up acme renew cron", .probe "crontab -l",
              .crontabWrite, .log "acme renew cron added"])

/-- The flag-style inputs of issue-cert (cli.rs lines 18 to 34); the two
input-path fields exist on the CLI but are never read by the command. -/
structure IssueCertArgs where
  cf_token : Option String
  cf_account_id : Option String
  cf_zone_id : Option String
  domain : Option String
  wildcard_domain : Option String
  acme_bin : Option String
  acme_home : Option String
  cert_dir : Option String
  cert_dir_name : Option String
  cert_input_path : Option String
  key_input_path : Option String
  cert_output_path : Option String
  key_output_path : Option String
  nginx_bin : Option String

/-- The interactive lines each prompt of issue-cert would read. -/
structure IssuePrompts where
  cf_token_line : Except String String
  cf_account_id_line : Except String String
  cf_zone_id_line : Except String String
  domain_line : Except String String
  wildcard_domain_line : Except String String
  acme_bin_line : Except String String
  acme_home_line : Except String String
  cert_dir_name_line : Except String String
  nginx_bin_line : Except String String

/-- The copy-destination pair of issue_cert (commands.rs lines 229 to 236):
the explicit output pair when both halves are set, otherwise the pair
derived under the certificate directory. -/
def issue_dst (cert_output_path key_output_path : Option String)
    (cert_dir domain : String) : String × String :=
  match cert_output_path, key_output_path with
  | some cp, some kp => (cp, kp)
  | _, _ =>
    (pathJoin cert_dir (domain ++ ".cer"), pathJoin cert_dir (domain ++ ".key"))

/-- Embedding of issue_cert (commands.rs lines 65 to 262): resolve the
credential, domain, path and destination parameters, reject a half-specified
output pair, clear the ACME cache, issue, copy the produced pair into place,
optionally validate and reload the proxy, and register the renewal job. -/
def issue_cert (w : World) (env_overrides : Smap) (args : IssueCertArgs)
    (ps : IssuePrompts) (reload_nginx dry_run : Bool) : Res Unit :=
  match ensure_root w with
  | (.error e, tr) => (.error e, .log "Issuing certificate" :: tr)
  | (.ok _, trRoot) =>
  let tr0 := .log "Issuing certificate" :: trRoot
  match resolve_value args.cf_token env_overrides "CF_TOKEN" "Cloudflare token"
      true w.envv ps.cf_token_line with
  | .error e => (.error e, tr0)
  | .ok _cf_token =>
  match resolve_value args.cf_account_id env_overrides "CF_ACCOUNT_ID"
      "Cloudflare account ID" false w.envv ps.cf_account_id_line with
  | .error e => (.error e, tr0)
  | .ok _cf_account_id =>
  match resolve_value args.cf_zone_id env_overrides "CF_ZONE_ID"
      "Cloudflare zone ID" false w.envv ps.cf_zone_id_line with
  | .error e => (.error e, tr0)
  | .ok _cf_zone_id =>
  match resolve_value args.domain env_overrides "DOMAIN"
      "Primary domain (e.g., example.com)" false w.envv ps.domain_line with
  | .error e => (.error e, tr0)
  | .ok domain =>
  match resolve_optional_value args.wildcard_domain env_overrides
      "WILDCARD_DOMAIN" "Wildcard domain (e.g., *.example.com)" false w.envv
      ps.wildcard_domain_line with
  | .error e => (.error e, tr0)
  | .ok wopt =>
  let wildcard_domain := wopt.getD ("*." ++ domain)
  match resolve_path args.acme_bin env_overrides "ACME_BIN"
      "/root/.acme.sh/acme.sh" "acme.sh path" w.envv ps.acme_bin_line with
  | .error e => (.error e, tr0)
  | .ok acme_bin =>
  match resolve_path args.acme_home env_overrides "ACME_HOME" "/root/.acme.sh"
      "acme home directory" w.envv ps.acme_home_line with
  | .error e => (.error e, tr0)
  | .ok acme_home =>
  match resolve_cert_dir
      (resolve_optional_path args.cert_dir env_overrides "CERT_DIR" w.envv)
      args.cert_dir_name env_overrides ["CERT_DIR_NAME"] "custom" w.envv
      ps.cert_dir_name_line with
  | .error e => (.error e, tr0)
  | .ok cert_dir =>
  let cert_output_path :=
    resolve_optional_path args.cert_output_path env_overrides "CERT_OUTPUT_PATH" w.envv
  let key_output_path :=
    resolve_optional_path args.key_output_path env_overrides "KEY_OUTPUT_PATH" w.envv
  if cert_output_path.isSome ^^ key_output_path.isSome then
    (.error "Both CERT_OUTPUT_PATH and KEY_OUTPUT_PATH must be set together", tr0)
  else
  match resolve_path args.nginx_bin env_overrides "NGINX_BIN" "nginx"
      "nginx binary" w.envv ps.nginx_bin_line with
  | .error e => (.error e, tr0)
  | .ok nginx_bin =>
  let cache_dir := pathJoin acme_home (domain ++ "_ecc")
  let cacheStep : Res Unit :=
    if dry_run then
      (.ok (), [.log ("[dry-run] Would remove cache dir if exists: " ++ cache_dir)])
    else if w.cacheDirExists then
      match w.fsRemoveDirOk cache_dir with
      | .error e =>
        (.error ("Failed to remove cache dir " ++ cache_dir ++ ": " ++ e),
          [.fsRemoveDirAll cache_dir])
      | .ok _ => (.ok (), [.fsRemoveDirAll cache_dir])
    else (.ok (), [])
  match cacheStep with
  | (.error e, tr) => (.error e, tr0 ++ tr)
  | (.ok _, trC) =>
  let acme_args :=
    ["--issue", "--force", "-d", domain, "-d", wildcard_domain, "--dns",
      "dns_cf", "--keylength", "ec-256"]
  let acmeStep : Res Unit :=
    if dry_run then
      (.ok (), [.log "[dry-run] Would run acme.sh to issue certificate"])
    else
      match w.cmdResult acme_bin acme_args with
      | .error e => (.error ("Failed to run acme.sh: " ++ e), [.runCmd acme_bin acme_args])
      | .ok false => (.error "Certificate issuance failed", [.runCmd acme_bin acme_args])
      | .ok true =>
        (.ok (), [.runCmd acme_bin acme_args, .log "Certificate issuance completed"])
  match acmeStep with
  | (.error e, tr) => (.error e, tr0 ++ trC ++ tr)
  | (.ok _, trA) =>
  let cert_src := pathJoin cache_dir "fullchain.cer"
  let key_src := pathJoin cache_dir (domain ++ ".key")
  let dst := issue_dst cert_output_path key_output_path cert_dir domain
  let cert_dst := dst.1
  let key_dst := dst.2
  let cert_parent :=
    match parentDir cert_dst with
    | some p => p
    | none => "/"
  let dirStep : Res Unit :=
    if dry_run then
      (.ok (), [.log ("[dry-run] Would create cert dir: " ++ cert_parent)])
    else
      match parentDir cert_dst with
      | some parent =>
        match w.fsCreateDirOk parent with
        | .error e =>
          (.error ("Failed to create " ++ parent ++ ": " ++ e),
            [.fsCreateDirAll parent])
        | .ok _ => (.ok (), [.fsCreateDirAll parent])
      | none => (.ok (), [])
  match dirStep with
  | (.error e, tr) => (.error e, tr0 ++ trC ++ trA ++ tr)
  | (.ok _, trD) =>
  let copyStep : Res Unit :=
    if dry_run then
      (.ok (), [.log ("[dry-run] Would copy cert: " ++ cert_src ++ " -> " ++ cert_dst),
        .log ("[dry-run] Would copy key: " ++ key_src ++ " -> " ++ key_dst)])
    else
      match w.fsCopyOk cert_src cert_dst with
      | .error e =>
        (.error ("Failed to copy cert from " ++ cert_src ++ ": " ++ e),
          [.fsCopy cert_src cert_dst])
      | .ok _ =>
        match w.fsCopyOk key_src key_dst with
        | .error e =>
          (.error ("Failed to copy key from " ++ key_src ++ ": " ++ e),
            [.fsCopy cert_src cert_dst, .fsCopy key_src key_dst])
        | .ok _ =>
          (.ok (), [.fsCopy cert_src cert_dst, .fsCopy key_src key_dst,
            .log "Certificate files updated"])
  match copyStep with
  | (.error e, tr) => (.error e, tr0 ++ trC ++ trA ++ trD ++ tr)
  | (.ok _, trCp) =>
  let reloadStep : Res Unit :=
    if reload_nginx then
      if dry_run then (.ok (), [.log "[dry-run] Would run nginx -t and reload"])
      else
        match w.cmdResult nginx_bin ["-t"] with
        | .error e =>
          (.error ("Failed to run nginx -t: " ++ e), [.runCmd nginx_bin ["-t"]])
        | .ok false => (.error "nginx -t failed", [.runCmd nginx_bin ["-t"]])
        | .ok true =>
          match w.cmdResult nginx_bin ["-s", "reload"] with
          | .error e =>
            (.error ("Failed to reload nginx: " ++ e),
              [.runCmd nginx_bin ["-t"], .runCmd nginx_bin ["-s", "reload"]])
          | .ok false =>
            (.error "nginx reload failed",
              [.runCmd nginx_bin ["-t"], .runCmd nginx_bin ["-s", "reload"]])
          | .ok true =>
            (.ok (), [.runCmd nginx_bin ["-t"], .runCmd nginx_bin ["-s", "reload"],
              .log "nginx reloaded"])
    else (.ok (), [])
  match reloadStep with
  | (.error e, tr) => (.error e, tr0 ++ trC ++ trA ++ trD ++ trCp ++ tr)
  | (.ok _, trR) =>
  match setup_acme_renew_cron w acme_bin acme_home dry_run with
  | (r, trCron) => (r, tr0 ++ trC ++ trA ++ trD ++ trCp ++ trR ++ trCron)

/-- The interactive lines the prompts of write-nginx-default would read. -/
structure NginxDefaultPrompts where
  domain_line : Except String String
  cert_dir_name_line : Except String String
  output_path_line : Except String String

/-- The parent-directory step of write_nginx_default (commands.rs lines 308
to 318): when the output path has a parent, create it, or in a dry run log
the intent. -/
def create_parent_dir (w : World) (path : String) (dry_run : Bool) :
    Res Unit :=
  match parentDir path with
  | some parent =>
    if dry_run then
      (.ok (), [.log ("[dry-run] Would create directory: " ++ parent)])
    else
      match w.fsCreateDirOk parent with
      | .error e =>
        (.error ("Failed to create " ++ parent ++ ": " ++ e),
          [.fsCreateDirAll parent])
      | .ok _ => (.ok (), [.fsCreateDirAll parent])
  | none => (.ok (), [])

/-- Embedding of write_nginx_default (commands.rs lines 264 to 335): resolve
the certificate pair (deriving from domain and certificate directory only
when neither half is explicit), resolve the output path, then create the
parent directory and write the rendered template, both replaced by intents
in a dry run. -/
def write_nginx_default (w : World) (env_overrides : Smap)
    (cert_path0 key_path0 : Option String) (cert_dir_name : Option String)
    (domain0 : Option String) (output_path0 : Option String)
    (ps : NginxDefaultPrompts) (dry_run : Bool) : Res Unit :=
  let cert_path := resolve_optional_path cert_path0 env_overrides "NGINX_CERT_PATH" w.envv
  let key_path := resolve_optional_path key_path0 env_overrides "NGINX_KEY_PATH" w.envv
  let needs_domain := cert_path.isNone || key_path.isNone
  match (if needs_domain then
      (resolve_value domain0 env_overrides "DOMAIN"
        "Primary domain (e.g., example.com)" false w.envv ps.domain_line).map some
    else .ok none) with
  | .error e => (.error e, [])
  | .ok domainO =>
  match (if needs_domain then
      (resolve_cert_dir none cert_dir_name env_overrides
        ["NGINX_CERT_DIR_NAME", "CERT_DIR_NAME"] "custom" w.envv
        ps.cert_dir_name_line).map some
    else .ok none) with
  | .error e => (.error e, [])
  | .ok cert_dirO =>
  match resolve_cert_paths cert_path key_path cert_dirO domainO with
  | .error e => (.error e, [])
  | .ok _pair =>
  match resolve_path output_path0 env_overrides "NGINX_DEFAULT_OUTPUT"
      "/etc/nginx/conf.d/default/00-default.conf" "nginx default output path"
      w.envv ps.output_path_line with
  | .error e => (.error e, [])
  | .ok output_path =>
  match create_parent_dir w output_path dry_run with
  | (.error e, tr) => (.error e, .log "Writing nginx default config" :: tr)
  | (.ok _, trD) =>
  let writeStep : Res Unit :=
    if dry_run then
      (.ok (), [.log ("[dry-run] Would write nginx default config to: " ++ output_path)])
    else
      match w.fsWriteOk output_path with
      | .error e =>
        (.error ("Failed to write " ++ output_path ++ ": " ++ e),
          [.fsWrite output_path])
      | .ok _ => (.ok (), [.fsWrite output_path, .log "nginx default config written"])
  (writeStep.1, .log "Writing nginx default config" :: (trD ++ writeStep.2))

/-- The flag-style inputs of write-proxy-config (cli.rs lines 36 to 46). -/
structure WriteProxyArgs where
  proxy_domain : Option String
  backend_url : Option String
  cert_path : Option String
  key_path : Option String
  cert_dir_name : Option String
  cert_dir : Option String
  output_dir : Option String
  resolvers : List String

/-- The interactive inputs the prompts of write-proxy-config would read. -/
structure ProxyPrompts where
  proxy_domain_line : Except String String
  backend_url_line : Except String String
  resolver_timed : TimedRead
  resolver_custom_line : Except String String
  domain_line : Except String String
  cert_dir_name_line : Except String String
  output_dir_line : Except String String

/-- The concrete values write-proxy-config resolves before rendering. -/
structure ResolvedProxyConfig where
  proxy_domain : String
  backend_url : String
  resolver : String
  cert_path : String
  key_path : String
  output_dir : String
  output_path : String
  deriving DecidableEq, Repr

/-- The pure resolution pipeline of write_proxy_config (commands.rs lines
337 to 394): proxy domain, backend, resolver list, then the certificate
pair — the domain fed to the derivation is resolved with the proxy domain
as its explicit value — and finally the output directory and file name. -/
def write_proxy_config_resolve (env_overrides : Smap) (envv : Smap)
    (args : WriteProxyArgs) (ps : ProxyPrompts) :
    Except String ResolvedProxyConfig :=
  match resolve_value args.proxy_domain env_overrides "PROXY_DOMAIN"
      "Proxy domain (e.g., proxy.example.com)" false envv ps.proxy_domain_line with
  | .error e => .error e
  | .ok proxy_domain =>
  match resolve_value args.backend_url env_overrides "BACKEND_URL"
      "Backend URL (e.g., https://emby.example.com:443)" false envv
      ps.backend_url_line with
  | .error e => .error e
  | .ok backend_url =>
  match resolve_resolvers args.resolvers env_overrides "RESOLVER"
      DEFAULT_RESOLVER envv ps.resolver_timed ps.resolver_custom_line with
  | .error e => .error e
  | .ok resolver =>
  let cert_path := resolve_optional_path args.cert_path env_overrides "NGINX_CERT_PATH" envv
  let key_path := resolve_optional_path args.key_path env_overrides "NGINX_KEY_PATH" envv
  let needs_domain := cert_path.isNone || key_path.isNone
  match (if needs_domain then
      (resolve_value (some proxy_domain) env_overrides "DOMAIN"
        "Primary domain (e.g., example.com)" false envv ps.domain_line).map some
    else .ok none) with
  | .error e => .error e
  | .ok domainO =>
  match (if needs_domain then
      (resolve_cert_dir
        (resolve_optional_path args.cert_dir env_overrides "CERT_DIR" envv)
        args.cert_dir_name env_overrides ["NGINX_CERT_DIR_NAME", "CERT_DIR_NAME"]
        "custom" envv ps.cert_dir_name_line).map some
    else .ok none) with
  | .error e => .error e
  | .ok cert_dirO =>
  match resolve_cert_paths cert_path key_path cert_dirO domainO with
  | .error e => .error e
  | .ok pair =>
  match resolve_path args.output_dir env_overrides "PROXY_OUTPUT_DIR"
      "/etc/nginx/conf.d/proxy" "proxy config output dir" envv
      ps.output_dir_line with
  | .error e => .error e
  | .ok output_dir =>
    .ok { proxy_domain := proxy_domain, backend_url := backend_url,
          resolver := resolver, cert_path := pair.1, key_path := pair.2,
          output_dir := output_dir,
          output_path :=
            pathJoin output_dir (strReplaceChar proxy_domain '.' '-' ++ ".conf") }

/-- Spec-side reading of the override-map build: the value of a key is the
last one supplied for it in the pair sequence, a later pair shadowing every
earlier pair with the same key. -/
def lastSupplied (pairs : List (String × String)) (k : String) : Option String :=
  match pairs with
  | [] => none
  | p :: ps =>
    match lastSupplied ps k with
    | some v => some v
    | none => if k = p.1 then some p.2 else none

/-- The empty environment snapshot. -/
def trivialEnv : Smap := fun _ => none

/-- A benign concrete world: root privilege, no executable present, every
external operation succeeding, a Debian OS descriptor, and a user answering
yes to the confirmation. -/
def w0 : World where
  envv := trivialEnv
  commandExists := fun _ => false
  uid := .ok "0\n"
  cmdResult := fun _ _ => .ok true
  confirmRead := .line "y\n"
  osRelease := .ok "ID=debian\nVERSION_CODENAME=bookworm\n"
  lsbRelease := .ok (true, "bookworm\n")
  alpineRelease := .ok "3.19.1\n"
  apkRepositories := .ok "https://mirror.example/alpine/v3.19/main\n"
  cacheDirExists := false
  crontabList := .ok ""
  crontabApply := .ok true
  fsWriteOk := fun _ => .ok ()
  fsCreateDirOk := fun _ => .ok ()
  fsCopyOk := fun _ _ => .ok ()
  fsRemoveDirOk := fun _ => .ok ()
  fsRenameOk := fun _ _ => .ok ()

/-- write-proxy-config invoked with no flags at all. -/
def emptyProxyArgs : WriteProxyArgs where
  proxy_domain := none
  backend_url := none
  cert_path := none
  key_path := none
  cert_dir_name := none
  cert_dir := none
  output_dir := none
  resolvers := []

/-- Interactive oracles for write-proxy-config delivering only blank lines
and a timed-out menu. -/
def quietProxyPrompts : ProxyPrompts where
  proxy_domain_line := .ok ""
  backend_url_line := .ok ""
  resolver_timed := .timeout
  resolver_custom_line := .ok ""
  domain_line := .ok ""
  cert_dir_name_line := .ok ""
  output_dir_line := .ok ""

/-- The override map of the write-proxy-config scenario: DOMAIN and
PROXY_DOMAIN both bound, together with the remaining required values, so no
prompt is consulted. -/
def proxyScenarioOverrides (dv pd bu rv cd od : String) : Smap := fun k =>
  if k = "DOMAIN" then some dv
  else if k = "PROXY_DOMAIN" then some pd
  else if k = "BACKEND_URL" then some bu
  else if k = "RESOLVER" then some rv
  else if k = "CERT_DIR" then some cd
  else if k = "PROXY_OUTPUT_DIR" then some od
  else none

/-- issue-cert invoked with only the certificate-output half of the output
pair. -/
def issueHalfArgs : IssueCertArgs where
  cf_token := some "tok"
  cf_account_id := some "acct"
  cf_zone_id := some "zone"
  domain := some "example.com"
  wildcard_domain := none
  acme_bin := none
  acme_home := none
  cert_dir := none
  cert_dir_name := some "custom"
  cert_input_path := none
  key_input_path := none
  cert_output_path := some "/etc/ssl/out.cer"
  key_output_path := none
  nginx_bin := none

/-- Interactive oracles for issue-cert delivering only blank lines. -/
def quietIssuePrompts : IssuePrompts where
  cf_token_line := .ok ""
  cf_account_id_line := .ok ""
  cf_zone_id_line := .ok ""
  domain_line := .ok ""
  wildcard_domain_line := .ok ""
  acme_bin_line := .ok ""
  acme_home_line := .ok ""
  cert_dir_name_line := .ok ""
  nginx_bin_line := .ok ""

/-- Interactive oracles for write-nginx-default delivering only blank
lines. -/
def quietNginxDefaultPrompts : NginxDefaultPrompts where
  domain_line := .ok ""
  cert_dir_name_line := .ok ""
  output_path_line := .ok ""

/-- The dry-run vocabulary of intent: whether a log message is a statement
of intent the code emits for the given mutating action.  Each alternative is
the exact message the corresponding dry-run branch of commands.rs logs for
that action. -/
def intentFor (e : Effect) (m : String) : Bool :=
  match e with
  | .runCmd cmd args =>
      m == "[dry-run] Would run: " ++ cmd ++ " " ++ joinSep " " args
      || m == "[dry-run] Would run acme.sh to issue certificate"
      || m == "[dry-run] Would run nginx -t and reload"
  | .fsWrite path =>
      m == "[dry-run] Would write " ++ path
      || m == "[dry-run] Would write nginx default config to: " ++ path
      || m == "[dry-run] Would write proxy config to: " ++ path
      || (path == "/etc/apk/repositories"
          && m == "[dry-run] Would append nginx repo to /etc/apk/repositories")
  | .fsCreateDirAll path =>
      m == "[dry-run] Would create directory: " ++ path
      || m == "[dry-run] Would create cert dir: " ++ path
  | .fsCopy src dst =>
      m == "[dry-run] Would copy cert: " ++ src ++ " -> " ++ dst
      || m == "[dry-run] Would copy key: " ++ src ++ " -> " ++ dst
  | .fsRemoveDirAll path =>
      m == "[dry-run] Would remove cache dir if exists: " ++ path
  | .fsRename _ _ =>
      m == "[dry-run] Would move nginx signing key to /etc/apk/keys/"
  | .crontabWrite => strStartsWith m "[dry-run] Would ensure cron: "
  | .probe _ => false
  | .log _ => false

/-- Whether one trace entry is an intent log for the action. -/
def intentLog (e : Effect) (x : Effect) : Bool :=
  match x with
  | .log m => intentFor e m
  | _ => false

/-- Whether the dry trace logs a statement of intent for the action. -/
def reported (dryTr : List Effect) (e : Effect) : Bool :=
  dryTr.any (intentLog e)

/-- Every mutating action of the real trace is announced by an intent log of
the dry trace. -/
def allReported (realTr dryTr : List Effect) : Bool :=
  realTr.all (fun e => !e.mutating || reported dryTr e)

deriving instance DecidableEq for Except

/-! Section: Helper lemmas -/

/-- Emptiness of a trimmed string is the blankness of the original. -/
theorem strIsEmpty_strTrim (s : String) : strIsEmpty (strTrim s) = blank s := rfl

/-- Unequal booleans have true exclusive or. -/
theorem bool_xor_of_ne {a b : Bool} (h : a ≠ b) : (a ^^ b) = true := by
  cases a <;> cases b <;> simp_all

/-- A character list without an equals sign is its own key part. -/
theorem keyPartChars_no_eq (cs : List Char) (h : cs.contains '=' = false) :
    keyPartChars cs = cs := by
  induction cs with
  | nil => rfl
  | cons c cs ih =>
    simp only [List.contains_cons, Bool.or_eq_false_iff, beq_eq_false_iff_ne,
      ne_eq] at h
    have hne : c = '=' → False := fun hc => h.1 hc.symm
    simp only [keyPartChars, if_neg hne, List.cons.injEq, true_and]
    exact ih h.2

/-- A character list without an equals sign has no value part. -/
theorem valueAfterEq_no_eq (cs : List Char) (h : cs.contains '=' = false) :
    valueAfterEq cs = none := by
  induction cs with
  | nil => rfl
  | cons c cs ih =>
    simp only [List.contains_cons, Bool.or_eq_false_iff, beq_eq_false_iff_ne,
      ne_eq] at h
    have hne : c = '=' → False := fun hc => h.1 hc.symm
    simp only [valueAfterEq, if_neg hne]
    exact ih h.2

/-- The key part of a list extended past its first equals sign. -/
theorem keyPartChars_append_eq (cs rest : List Char)
    (h : cs.contains '=' = false) :
    keyPartChars (cs ++ '=' :: rest) = cs := by
  induction cs with
  | nil => simp [keyPartChars]
  | cons c cs ih =>
    simp only [List.contains_cons, Bool.or_eq_false_iff, beq_eq_false_iff_ne,
      ne_eq] at h
    have hne : c = '=' → False := fun hc => h.1 hc.symm
    simp only [List.cons_append, keyPartChars, if_neg hne, List.cons.injEq,
      true_and]
    exact ih h.2

/-- The value part of a list extended past its first equals sign. -/
theorem valueAfterEq_append_eq (cs rest : List Char)
    (h : cs.contains '=' = false) :
    valueAfterEq (cs ++ '=' :: rest) = some rest := by
  induction cs with
  | nil => simp [valueAfterEq]
  | cons c cs ih =>
    simp only [List.contains_cons, Bool.or_eq_false_iff, beq_eq_false_iff_ne,
      ne_eq] at h
    have hne : c = '=' → False := fun hc => h.1 hc.symm
    simp only [List.cons_append, valueAfterEq, if_neg hne]
    exact ih h.2

/-- Folding override pairs over any initial lookup: the last supplied value
wins, the initial lookup answering only untouched keys. -/
theorem to_env_map_loop (pairs : List (String × String)) (init : Smap)
    (k : String) :
    (pairs.foldl (fun map kv => fun q => if q = kv.1 then some kv.2 else map q)
        init) k
      = (match lastSupplied pairs k with
         | some v => some v
         | none => init k) := by
  induction pairs generalizing init with
  | nil => simp [lastSupplied]
  | cons p ps ih =>
    simp only [List.foldl_cons, lastSupplied, ih]
    cases h : lastSupplied ps k with
    | some v => rfl
    | none => by_cases hk : k = p.1 <;> simp [hk]

/-! Section: Claim theorems -/

/-- C5: through the scalar resolver, an explicit CLI value is resolved to
itself whatever the override map, the environment snapshot and the prompt
oracle hold — in particular the prompt is never consulted, the result being
independent of the prompt line. -/
theorem resolve_value_explicit_wins (v : String) (env_overrides : Smap)
    (env_key prompt_label : String) (sensitive : Bool) (envv : Smap)
    (promptLine : Except String String) :
    resolve_value (some v) env_overrides env_key prompt_label sensitive envv
      promptLine = .ok v := rfl

/-- C6: with no explicit value, a non-blank override entry resolves the
scalar parameter even when the process environment binds the same key to
anything else, and again independently of the prompt oracle. -/
theorem resolve_value_override_beats_env (env_overrides : Smap)
    (env_key prompt_label v : String) (sensitive : Bool) (envv : Smap)
    (promptLine : Except String String)
    (hov : env_overrides env_key = some v) (hnb : blank v = false) :
    resolve_value none env_overrides env_key prompt_label sensitive envv
      promptLine = .ok v := by
  simp [resolve_value, nonBlank, hov, hnb]

/-- C6 witness: the override binding of DOMAIN wins over a conflicting
process-environment binding at a concrete input. -/
theorem resolve_value_override_beats_env_witness :
    resolve_value none (fun k => if k = "DOMAIN" then some "foo.com" else none)
      "DOMAIN" "Primary domain (e.g., example.com)" false
      (fun _ => some "bar.com") (.ok "baz") = .ok "foo.com" :=
  resolve_value_override_beats_env _ _ _ _ _ _ _ (by decide) (by decide)

/-- C8: when the optional scalar resolver falls through to the prompt, a
response that is blank after trimming resolves to no value and a non-blank
response resolves to that value; emptiness is never an error. -/
theorem resolve_optional_blank_prompt (env_overrides : Smap)
    (env_key prompt_label : String) (sensitive : Bool) (envv : Smap)
    (promptLine : Except String String) (input : String)
    (hov : nonBlank (env_overrides env_key) = none)
    (henv : nonBlank (envv env_key) = none)
    (hp : prompt_value promptLine sensitive = .ok input) :
    resolve_optional_value none env_overrides env_key prompt_label sensitive
        envv promptLine
      = .ok (if blank input then none else some input) := by
  simp only [resolve_optional_value, hov, henv, hp]
  split <;> rfl

/-- C8 witness: with every non-interactive source empty, a whitespace-only
prompt line resolves to no value and a non-blank line to itself. -/
theorem resolve_optional_blank_prompt_witness :
    resolve_optional_value none trivialEnv "WILDCARD_DOMAIN"
        "Wildcard domain (e.g., *.example.com)" false trivialEnv (.ok "  ")
      = .ok none
    ∧ resolve_optional_value none trivialEnv "WILDCARD_DOMAIN"
        "Wildcard domain (e.g., *.example.com)" false trivialEnv
        (.ok " *.foo.com ")
      = .ok (some "*.foo.com") := by
  constructor
  · have h := resolve_optional_blank_prompt trivialEnv "WILDCARD_DOMAIN"
      "Wildcard domain (e.g., *.example.com)" false trivialEnv (.ok "  ") ""
      (by decide) (by decide) (by decide)
    simpa using h
  · have h := resolve_optional_blank_prompt trivialEnv "WILDCARD_DOMAIN"
      "Wildcard domain (e.g., *.example.com)" false trivialEnv
      (.ok " *.foo.com ") "*.foo.com" (by decide) (by decide) (by decide)
    simpa using h

/-- C9: the override map built from a pair sequence is a function giving
each key at most one value, and that value is the last one supplied for the
key, for every input sequence. -/
theorem to_env_map_last_write_wins (pairs : List (String × String))
    (k : String) : to_env_map pairs k = lastSupplied pairs k := by
  unfold to_env_map
  rw [to_env_map_loop]
  cases lastSupplied pairs k <;> rfl

/-- C10: a non-empty menu answer other than the five listed choices resolves
the selection to the caller's default without error, and choosing custom and
then entering a blank line resolves to the same default. -/
theorem select_resolver_fallback_choices :
    (∀ (s : String) (customLine : Except String String)
        (default_value : String),
      blank s = false → strTrim s ≠ "1" → strTrim s ≠ "2" → strTrim s ≠ "3" →
      strTrim s ≠ "4" → strTrim s ≠ "5" →
      select_resolver_with_timeout (.line s) customLine default_value
        = .ok default_value)
    ∧ (∀ (s : String) (customLine : Except String String)
        (default_value c : String),
      strTrim s = "5" → prompt_value customLine false = .ok c →
      blank c = true →
      select_resolver_with_timeout (.line s) customLine default_value
        = .ok default_value) := by
  constructor
  · intro s customLine default_value h h1 h2 h3 h4 h5
    simp [select_resolver_with_timeout, read_line_with_timeout,
      strIsEmpty_strTrim, h, h1, h2, h3, h4, h5]
  · intro s customLine default_value c h5 hp hc
    have e0 : strIsEmpty ("5" : String) = false := by decide
    have d1 : ("5" : String) ≠ "1" := by decide
    have d2 : ("5" : String) ≠ "2" := by decide
    have d3 : ("5" : String) ≠ "3" := by decide
    have d4 : ("5" : String) ≠ "4" := by decide
    simp only [select_resolver_with_timeout, read_line_with_timeout,
      Option.getD, h5, e0, Bool.false_eq_true, if_false, d1, d2, d3, d4,
      hp, hc, if_true]

/-- C10 witness: the answer 9 and the custom choice followed by a blank line
both resolve to the default at concrete inputs. -/
theorem select_resolver_fallback_choices_witness :
    select_resolver_with_timeout (.line "9\n") (.ok "") "d" = .ok "d"
    ∧ select_resolver_with_timeout (.line "5\n") (.ok " ") "d" = .ok "d" :=
  ⟨select_resolver_fallback_choices.1 "9\n" (.ok "") "d" (by decide)
      (by decide) (by decide) (by decide) (by decide) (by decide),
    select_resolver_fallback_choices.2 "5\n" (.ok " ") "d" "" (by decide)
      (by decide) (by decide)⟩

/-- C7: a timed prompt that receives no answer resolves to the documented
default rather than an error: the yes/no confirmation resolves to no, the
resolver menu resolves to the caller's default, the menu bound is ten
seconds, and concretely the menu invoked from write-proxy-config with the
RESOLVER sources empty resolves to the Cloudflare resolver string. -/
theorem timed_prompt_defaults :
    (∀ (prompt : String) (timeout_secs : Nat),
      (confirm_with_timeout prompt timeout_secs .timeout false).1 = .ok false)
    ∧ (∀ (customLine : Except String String) (default_value : String),
      select_resolver_with_timeout .timeout customLine default_value
        = .ok default_value)
    ∧ RESOLVER_TIMEOUT_SECS = 10
    ∧ (∀ (env_overrides envv : Smap) (customLine : Except String String),
      nonBlank (env_overrides "RESOLVER") = none →
      nonBlank (envv "RESOLVER") = none →
      resolve_resolvers [] env_overrides "RESOLVER" DEFAULT_RESOLVER envv
          .timeout customLine
        = .ok "1.1.1.1 1.0.0.1 [2606:4700:4700::1111] [2606:4700:4700::1064]") := by
  refine ⟨fun prompt timeout_secs => rfl, fun customLine default_value => rfl,
    rfl, ?_⟩
  intro env_overrides envv customLine hov henv
  unfold resolve_resolvers
  simp only [hov, henv]
  rfl

/-- C7 witness: with empty sources and a timed-out menu read, the resolver
of write-proxy-config resolves to the Cloudflare string, and a timed-out
confirmation answers no. -/
theorem timed_prompt_defaults_witness :
    resolve_resolvers [] trivialEnv "RESOLVER" DEFAULT_RESOLVER trivialEnv
        .timeout (.ok "")
      = .ok "1.1.1.1 1.0.0.1 [2606:4700:4700::1111] [2606:4700:4700::1064]"
    ∧ (confirm_with_timeout "Install zsh?" DEFAULT_CONFIRM_TIMEOUT .timeout
        false).1 = .ok false :=
  ⟨timed_prompt_defaults.2.2.2 trivialEnv trivialEnv (.ok "") (by decide)
      (by decide),
    timed_prompt_defaults.1 "Install zsh?" DEFAULT_CONFIRM_TIMEOUT⟩

/-- C2 counterexample: the entry FOO contains no equals sign yet parses
successfully as the key FOO with an empty value, so an entry without an
equals sign is not in general a startup error. -/
theorem parse_key_val_no_equals_cex :
    "FOO".data.contains '=' = false
    ∧ parse_key_val "FOO" = .ok ("FOO", "") := by
  constructor
  · decide
  · rfl

/-- C2 amended: parsing an override entry fails exactly when the text before
its first equals sign (the whole entry when none occurs) is blank after
trimming.  The equivalence is settled in both directions over every string,
and the two surface shapes are characterised exhaustively: an entry without
an equals sign parses to the trimmed entry with an empty value unless the
entry is blank, and an entry written key, equals sign, value with an
equals-free key parses to the trimmed key and the verbatim value unless the
key is blank — the blank cases, including a blank-but-nonempty key, being
exactly the error. -/
theorem parse_key_val_malformed_iff :
    (∀ s : String,
      parse_key_val s = .error "--env expects KEY=VALUE"
        ↔ blank (String.mk (keyPartChars s.data)) = true)
    ∧ (∀ s : String, s.data.contains '=' = false →
      parse_key_val s =
        if blank s then .error "--env expects KEY=VALUE"
        else .ok (strTrim s, ""))
    ∧ (∀ k v : String, k.data.contains '=' = false →
      parse_key_val (k ++ "=" ++ v) =
        if blank k then .error "--env expects KEY=VALUE"
        else .ok (strTrim k, v)) := by
  refine ⟨?_, ?_, ?_⟩
  · intro s
    simp only [parse_key_val, strIsEmpty_strTrim]
    by_cases hb : blank (String.mk (keyPartChars s.data)) = true <;> simp [hb]
  · intro s h
    simp only [parse_key_val, keyPartChars_no_eq s.data h,
      valueAfterEq_no_eq s.data h]
    rfl
  · intro k v hk
    have hdata : (k ++ "=" ++ v).data = k.data ++ '=' :: v.data := by
      show (k.data ++ "=".data) ++ v.data = k.data ++ '=' :: v.data
      rw [List.append_assoc]
      rfl
    simp only [parse_key_val, hdata, keyPartChars_append_eq k.data v.data hk,
      valueAfterEq_append_eq k.data v.data hk]
    rfl

/-- C2 witness at representative inputs: a blank-but-nonempty key before an
equals sign errors, a non-blank entry without an equals sign parses with an
empty value, a multi-equals value is kept verbatim, and the equivalence
instantiated at a whitespace-only entry. -/
theorem parse_key_val_malformed_iff_witness :
    parse_key_val (" " ++ "=" ++ "v") = .error "--env expects KEY=VALUE"
    ∧ parse_key_val "BAR" = .ok ("BAR", "")
    ∧ parse_key_val (" A " ++ "=" ++ "b=c") = .ok ("A", "b=c")
    ∧ (parse_key_val " " = .error "--env expects KEY=VALUE"
        ↔ blank (String.mk (keyPartChars " ".data)) = true) := by
  refine ⟨?_, ?_, ?_, parse_key_val_malformed_iff.1 " "⟩
  · have h := parse_key_val_malformed_iff.2.2 " " "v" (by decide)
    rw [h]
    decide
  · have h := parse_key_val_malformed_iff.2.1 "BAR" (by decide)
    rw [h]
    decide
  · have h := parse_key_val_malformed_iff.2.2 " A " "b=c" (by decide)
    rw [h]
    decide

/-- C1 counterexample: with the override map binding DOMAIN to foo.com and
PROXY_DOMAIN to bar.com, no domain flag (the command has none) and no
explicit certificate or key paths, write-proxy-config derives
/certs/bar.com.cer and /certs/bar.com.key — the derivation uses the
resolved proxy domain, not the DOMAIN entry of the override map, so the
derived certificate path differs from /certs/foo.com.cer. -/
theorem write_proxy_domain_derivation_cex :
    (write_proxy_config_resolve
        (to_env_map [("DOMAIN", "foo.com"), ("PROXY_DOMAIN", "bar.com"),
          ("BACKEND_URL", "https://emby.internal:443"),
          ("RESOLVER", "8.8.8.8"), ("CERT_DIR", "/certs"),
          ("PROXY_OUTPUT_DIR", "/out")])
        trivialEnv emptyProxyArgs quietProxyPrompts).map
      (fun cfg => (cfg.cert_path, cfg.key_path))
      = .ok ("/certs/bar.com.cer", "/certs/bar.com.key")
    ∧ ("/certs/bar.com.cer" : String) ≠ "/certs/foo.com.cer" := by
  constructor
  · rfl
  · decide

/-- C1 amended: in the scenario of the claim — override map containing
DOMAIN together with the values write-proxy-config needs, no explicit
certificate or key paths, empty process environment — the derived paths are
cert-dir slash proxy-domain dot cer and dot key: the domain used for the
derivation is the resolved PROXY_DOMAIN value, because the command passes
the proxy domain as the explicit value into the DOMAIN resolver, and the
DOMAIN entry of the override map has no influence. -/
theorem write_proxy_config_uses_proxy_domain (dv pd bu rv cd od : String)
    (hpd : blank pd = false) (hbu : blank bu = false) (hrv : blank rv = false)
    (hcd : blank cd = false) (hod : blank od = false) :
    (write_proxy_config_resolve (proxyScenarioOverrides dv pd bu rv cd od)
        trivialEnv emptyProxyArgs quietProxyPrompts).map
      (fun cfg => (cfg.cert_path, cfg.key_path))
      = .ok (pathJoin cd (pd ++ ".cer"), pathJoin cd (pd ++ ".key")) := by
  have oPD : proxyScenarioOverrides dv pd bu rv cd od "PROXY_DOMAIN" = some pd := rfl
  have oBU : proxyScenarioOverrides dv pd bu rv cd od "BACKEND_URL" = some bu := rfl
  have oRV : proxyScenarioOverrides dv pd bu rv cd od "RESOLVER" = some rv := rfl
  have oCD : proxyScenarioOverrides dv pd bu rv cd od "CERT_DIR" = some cd := rfl
  have oOD : proxyScenarioOverrides dv pd bu rv cd od "PROXY_OUTPUT_DIR" = some od := rfl
  have oNCP : proxyScenarioOverrides dv pd bu rv cd od "NGINX_CERT_PATH" = none := rfl
  have oNKP : proxyScenarioOverrides dv pd bu rv cd od "NGINX_KEY_PATH" = none := rfl
  simp only [write_proxy_config_resolve, emptyProxyArgs, quietProxyPrompts,
    resolve_value, resolve_resolvers, resolve_optional_path, resolve_cert_dir,
    oPD, oBU, oRV, oCD, oOD, oNCP, oNKP, nonBlank, trivialEnv, hpd, hbu, hrv,
    hcd, hod, Bool.false_eq_true, if_false, List.isEmpty_nil, Bool.not_true,
    Option.isNone_none, Bool.or_self, if_true, resolve_cert_paths,
    resolve_path, Except.map]

/-- C1 witness for the amended claim: concrete values of the scenario,
showing the derived pair carries the proxy domain bar.com while the DOMAIN
override holds foo.com. -/
theorem write_proxy_config_uses_proxy_domain_witness :
    (write_proxy_config_resolve
        (proxyScenarioOverrides "foo.com" "bar.com" "https://emby.internal:443"
          "8.8.8.8" "/certs" "/out")
        trivialEnv emptyProxyArgs quietProxyPrompts).map
      (fun cfg => (cfg.cert_path, cfg.key_path))
      = .ok (pathJoin "/certs" ("bar.com" ++ ".cer"),
          pathJoin "/certs" ("bar.com" ++ ".key")) :=
  write_proxy_config_uses_proxy_domain "foo.com" "bar.com"
    "https://emby.internal:443" "8.8.8.8" "/certs" "/out" (by decide)
    (by decide) (by decide) (by decide) (by decide)

/-- A half-specified pair makes the certificate-path assembler fail. -/
theorem resolve_cert_paths_half (cp kp cd dom : Option String)
    (h : cp.isSome ≠ kp.isSome) :
    resolve_cert_paths cp kp cd dom
      = .error "Both cert and key paths must be set together" := by
  cases cp <;> cases kp <;> simp_all [resolve_cert_paths]

/-- C4: supplying exactly one of the certificate path and the key path is a
configuration error for every domain and certificate-directory input: the
assembler answers the configuration error outright, issue-cert never
succeeds when exactly one of its resolved output paths is present, and
write-nginx-default never succeeds when exactly one of its resolved
certificate-pair halves is present. -/
theorem half_specified_cert_pair_errors :
    (∀ cp kp cert_dir domain : Option String, cp.isSome ≠ kp.isSome →
      resolve_cert_paths cp kp cert_dir domain
        = .error "Both cert and key paths must be set together")
    ∧ (∀ (w : World) (env_overrides : Smap) (args : IssueCertArgs)
        (ps : IssuePrompts) (reload_nginx dry_run : Bool),
      (resolve_optional_path args.cert_output_path env_overrides
          "CERT_OUTPUT_PATH" w.envv).isSome
        ≠ (resolve_optional_path args.key_output_path env_overrides
          "KEY_OUTPUT_PATH" w.envv).isSome →
      (issue_cert w env_overrides args ps reload_nginx dry_run).1 ≠ .ok ())
    ∧ (∀ (w : World) (env_overrides : Smap)
        (cp0 kp0 cdn dom0 outp : Option String) (ps : NginxDefaultPrompts)
        (dry_run : Bool),
      (resolve_optional_path cp0 env_overrides "NGINX_CERT_PATH" w.envv).isSome
        ≠ (resolve_optional_path kp0 env_overrides "NGINX_KEY_PATH" w.envv).isSome →
      (write_nginx_default w env_overrides cp0 kp0 cdn dom0 outp ps
          dry_run).1 ≠ .ok ()) := by
  refine ⟨fun cp kp cert_dir domain h => resolve_cert_paths_half cp kp cert_dir domain h, ?_, ?_⟩
  · intro w eo args ps rn dr h hok
    have hx := bool_xor_of_ne h
    simp [issue_cert, hx] at hok
    repeat' split at hok
    all_goals simp_all
  · intro w eo cp0 kp0 cdn dom0 outp ps dr h hok
    simp only [write_nginx_default] at hok
    repeat' split at hok
    all_goals simp_all [resolve_cert_paths_half]

/-- C4 witness: concrete half-specified pairs fail in the assembler, in
issue-cert, and in write-nginx-default. -/
theorem half_specified_cert_pair_errors_witness :
    resolve_cert_paths (some "/a.cer") none (some "/certs") (some "d")
      = .error "Both cert and key paths must be set together"
    ∧ (issue_cert w0 trivialEnv issueHalfArgs quietIssuePrompts true false).1
      ≠ .ok ()
    ∧ (write_nginx_default w0 trivialEnv (some "/a.cer") none none (some "d")
        none quietNginxDefaultPrompts false).1 ≠ .ok () :=
  ⟨half_specified_cert_pair_errors.1 (some "/a.cer") none (some "/certs")
      (some "d") (by decide),
    half_specified_cert_pair_errors.2.1 w0 trivialEnv issueHalfArgs
      quietIssuePrompts true false (by decide),
    half_specified_cert_pair_errors.2.2 w0 trivialEnv (some "/a.cer") none
      none (some "d") none quietNginxDefaultPrompts false (by decide)⟩

/-- A dry-run subprocess invocation only logs its intent. -/
theorem runCommand_dry_clean (w : World) (cmd : String) (args : List String) :
    cleanTrace (runCommand w cmd args true).2 = true := rfl

/-- Reporting over a cons dry trace. -/
theorem reported_cons (x : Effect) (d : List Effect) (e : Effect) :
    reported (x :: d) e = (intentLog e x || reported d e) := by
  simp [reported]

/-- The empty dry trace reports nothing. -/
theorem reported_nil (e : Effect) : reported [] e = false := rfl

/-- Full reporting over a cons real trace. -/
theorem allReported_cons (x : Effect) (a d : List Effect) :
    allReported (x :: a) d
      = ((!x.mutating || reported d x) && allReported a d) := by
  simp [allReported]

/-- The empty real trace is fully reported. -/
theorem allReported_nil (d : List Effect) : allReported [] d = true := rfl

/-- A real subprocess invocation is announced by its dry counterpart. -/
theorem runCommand_reported (w : World) (cmd : String) (args : List String) :
    allReported (runCommand w cmd args false).2 (runCommand w cmd args true).2
      = true := by
  unfold runCommand
  simp only [eq_self_iff_true, if_true, Bool.false_eq_true, if_false]
  repeat' split
  all_goals simp_all [allReported_cons, allReported_nil, reported_cons,
    reported_nil, intentLog, intentFor, Effect.mutating]

/-- A successful real zsh step records nothing or the zsh install. -/
theorem setup_zsh_step_real_ch (w : World) (ch : List String)
    (tr : List Effect) (h : setup_zsh_step w false = (.ok ch, tr)) :
    ch = [] ∨ ch = ["Installed zsh"] := by
  unfold setup_zsh_step install_if_missing at h
  try dsimp only at h
  repeat' split at h
  all_goals try subst_eqs
  all_goals simp_all

/-- A successful real cron step records nothing, or records the crontab
install with the capability previously missing. -/
theorem setup_cron_step_real_ch (w : World) (ch : List String)
    (tr : List Effect) (h : setup_cron_step w false = (.ok ch, tr)) :
    ch = [] ∨ (ch = ["Installed crontab"]
      ∧ w.commandExists "crontab" = false) := by
  unfold setup_cron_step install_if_missing command_exists at h
  try dsimp only at h
  repeat' split at h
  all_goals try subst_eqs
  all_goals simp_all

/-- A successful real nginx step records nothing, or records the nginx
install with the capability previously missing and the dispatch
succeeding. -/
theorem setup_nginx_step_real_ch (w : World) (ch : List String)
    (tr : List Effect) (h : setup_nginx_step w false = (.ok ch, tr)) :
    ch = [] ∨ (ch = ["Installed nginx"] ∧ w.commandExists "nginx" = false
      ∧ (install_nginx_official w false).1 = .ok ()) := by
  unfold setup_nginx_step install_if_missing command_exists at h
  try dsimp only at h
  repeat' split at h
  all_goals try subst_eqs
  all_goals simp_all

/-- A successful real nginx step over a missing capability implies the real
dispatch succeeded. -/
theorem setup_nginx_step_real_missing (w : World) (ch : List String)
    (tr : List Effect) (h : setup_nginx_step w false = (.ok ch, tr))
    (hx : w.commandExists "nginx" = false) :
    (install_nginx_official w false).1 = .ok () := by
  unfold setup_nginx_step install_if_missing command_exists at h
  try dsimp only at h
  repeat' split at h
  all_goals try subst_eqs
  all_goals simp_all

/-- What a successful real setup run certifies: root privilege held, a
crontab record implies the cron flag and a missing crontab, an nginx record
implies the nginx flag, a missing nginx and a successful dispatch, and with
the nginx flag set over a missing nginx the real dispatch succeeded. -/
theorem setup_real_facts (w : World) (z c n : Bool) (chR : List String)
    (h : (setup_system w z c n false).1 = .ok chR) :
    (ensure_root w).1 = .ok ()
    ∧ ("Installed crontab" ∈ chR →
        c = true ∧ w.commandExists "crontab" = false)
    ∧ ("Installed nginx" ∈ chR →
        n = true ∧ w.commandExists "nginx" = false
        ∧ (install_nginx_official w false).1 = .ok ())
    ∧ (n = true → w.commandExists "nginx" = false →
        (install_nginx_official w false).1 = .ok ()) := by
  unfold setup_system at h
  rcases hR : ensure_root w with ⟨rR, trR⟩
  rw [hR] at h
  cases rR with
  | error e => simp at h
  | ok u =>
    dsimp only at h
    rcases hZ : (if z then setup_zsh_step w false
        else ((.ok [], []) : Res (List String))) with ⟨rZ, trZ⟩
    rw [hZ] at h
    cases rZ with
    | error e => simp at h
    | ok ch1 =>
      dsimp only at h
      rcases hC : (if c then setup_cron_step w false
          else ((.ok [], []) : Res (List String))) with ⟨rC, trC⟩
      rw [hC] at h
      cases rC with
      | error e => simp at h
      | ok ch2 =>
        dsimp only at h
        rcases hN : (if n then setup_nginx_step w false
            else ((.ok [], []) : Res (List String))) with ⟨rN, trN⟩
        rw [hN] at h
        cases rN with
        | error e => simp at h
        | ok ch3 =>
          dsimp only at h
          have hchR : chR = ch1 ++ (ch2 ++ ch3) := by
            have := h
            simp at this
            exact this.symm
          subst hchR
          have hzch : ch1 = [] ∨ ch1 = ["Installed zsh"] := by
            cases z
            · simp at hZ
              exact Or.inl hZ.1
            · exact setup_zsh_step_real_ch w ch1 trZ (by simpa using hZ)
          have hcch : ch2 = []
              ∨ (ch2 = ["Installed crontab"] ∧ c = true
                ∧ w.commandExists "crontab" = false) := by
            cases c
            · simp at hC
              exact Or.inl hC.1
            · rcases setup_cron_step_real_ch w ch2 trC (by simpa using hC)
                with h2 | h2
              · exact Or.inl h2
              · exact Or.inr ⟨h2.1, rfl, h2.2⟩
          have hnch : ch3 = []
              ∨ (ch3 = ["Installed nginx"] ∧ n = true
                ∧ w.commandExists "nginx" = false
                ∧ (install_nginx_official w false).1 = .ok ()) := by
            cases n
            · simp at hN
              exact Or.inl hN.1
            · rcases setup_nginx_step_real_ch w ch3 trN (by simpa using hN)
                with h2 | h2
              · exact Or.inl h2
              · exact Or.inr ⟨h2.1, rfl, h2.2⟩
          have s1 : ("Installed crontab" : String) ≠ "Installed zsh" := by
            decide
          have s2 : ("Installed crontab" : String) ≠ "Installed nginx" := by
            decide
          have s3 : ("Installed nginx" : String) ≠ "Installed zsh" := by
            decide
          have s4 : ("Installed nginx" : String) ≠ "Installed crontab" := by
            decide
          refine ⟨by simp [hR], ?_, ?_, ?_⟩
          · intro hm
            rcases hzch with h1 | h1 <;> rcases hcch with h2 | h2 <;>
              rcases hnch with h3 | h3 <;> simp_all
          · intro hm
            rcases hzch with h1 | h1 <;> rcases hcch with h2 | h2 <;>
              rcases hnch with h3 | h3 <;> simp_all
          · intro hn0 hx
            subst hn0
            exact setup_nginx_step_real_missing w ch3 trN (by simpa using hN) hx

end EmbyProxy
